import Mathlib

/-!
# Verification of the routingFlow rebalancing engine

Shallow embedding of the rebalancing decision engine of the repository
(`src/main.rs`, the orchestrator loop) and of the historical monitor variant
(`src/monitor.rs`, `compare_bandwidth`), together with theorems settling the
frozen specification claims.

Modelling conventions:
* `f64` values are modelled as `ℚ`; the second component of a Prometheus
  sample value (a string that the code passes through `parse::<f64>()`) is
  modelled as `Option ℚ` — `some q` when the string parses as the number `q`,
  `none` when it is non-numeric.  `parse().unwrap_or(0.0)` becomes `.getD 0`
  and `parse().ok()?` becomes matching on the option.
* `HashMap`s are modelled as association lists with unique keys:
  `insert` replaces in place or appends, `entry(k).or_default()` followed by a
  field mutation becomes `updateA`, lookup is first-match.
* `u64` timestamps are `Nat`; the subtraction `now - record.timestamp` is
  Nat subtraction, which agrees with the `u64` one on the meaningful domain
  `record.timestamp ≤ now` (theorems that depend on subtraction carry that
  hypothesis).
* All reads of `SystemTime::now()` inside one loop iteration are modelled by
  the single per-tick timestamp `now` carried in the tick's inputs.
* The three HTTP fetches of a tick are modelled as `Except String _` inputs
  (the outcome the corresponding `reqwest` call produced), and the actuator
  as a function from `(ip, target_wan)` to the response outcome.
* A Rust panic (the slice indexing `ip_rx_list[0..1]` on an empty vector
  panics) is modelled as the `TickErr.panic` outcome of the tick.
-/

/-- Per-interface statistics; models `NicStats` in `src/main.rs`
(`tcp_bandwidth`, `tx_bps`, `rx_bps`, all `f64`, `Default` = zeros). -/
structure NicStats where
  tcp_bandwidth : ℚ
  tx_bps : ℚ
  rx_bps : ℚ
deriving DecidableEq

instance : Inhabited NicStats := ⟨⟨0, 0, 0⟩⟩

/-- Models `SwitchRecord` in `src/main.rs`: a successful actuator call,
with the flow's ip, the logical uplink it was moved to, and the move time. -/
structure SwitchRecord where
  ip : String
  target_wan : String
  timestamp : Nat
deriving DecidableEq

/-- Models `ConfigInfo` in `src/main.rs`. -/
structure ConfigInfo where
  lan : String
  wan0 : String
  wan1 : String
deriving DecidableEq

/-- Models `StatusResponse` in `src/main.rs`: the topology fetch payload.
The `mappings` hash map (flow ip → logical uplink) is an association list
with unique keys. -/
structure StatusResponse where
  config : ConfigInfo
  mappings : List (String × String)
deriving DecidableEq

/-- Models `PrometheusResult` in `src/main.rs`: one sample with its label
map and its value.  `value` is the parse outcome of the sample's string
value (`some q` iff it is numeric). -/
structure PrometheusResult where
  metric : List (String × String)
  value : Option ℚ
deriving DecidableEq

/-- First-match lookup in an association list; models `HashMap::get`. -/
def lookupA {α : Type} (m : List (String × α)) (k : String) : Option α :=
  (m.find? (fun p => decide (p.1 = k))).map Prod.snd

/-- Insert-or-replace; models `HashMap::insert` on a unique-key list. -/
def insertA {α : Type} (m : List (String × α)) (k : String) (v : α) :
    List (String × α) :=
  match m with
  | [] => [(k, v)]
  | (k', v') :: rest =>
      if k' = k then (k', v) :: rest else (k', v') :: insertA rest k v

/-- Models `map.entry(k).or_default()` followed by a mutation `f` of the
entry's value. -/
def updateA {α : Type} [Inhabited α] (m : List (String × α)) (k : String)
    (f : α → α) : List (String × α) :=
  match m with
  | [] => [(k, f default)]
  | (k', v') :: rest =>
      if k' = k then (k', f v') :: rest else (k', v') :: updateA rest k f

/-- The keys of an association list, in order. -/
def keysA {α : Type} (m : List (String × α)) : List String :=
  m.map Prod.fst

/-- Outcome of one actuator HTTP call (`client.get(&switch_url).send()`):
either a transport error (`Err(e)`) or a response whose status
`is_success()` is the given boolean. -/
inductive ActResponse where
  | err : ActResponse
  | status : Bool → ActResponse
deriving DecidableEq

/-- How a tick can fail: a fetch error propagated by `?`, or a Rust panic. -/
inductive TickErr where
  | fetchErr : String → TickErr
  | panic : String → TickErr
deriving DecidableEq

/-- What happened on one interface during a tick (one event per interface):
either the top flow was suppressed by the cooldown check, or an actuator
call was made with the recorded outcome. -/
inductive TickEvent where
  | suppressed : String → String → ℚ → TickEvent
  | switchOk : String → String → String → TickEvent
  | switchHttpErr : String → String → String → TickEvent
  | switchTransportErr : String → String → String → TickEvent
deriving DecidableEq

/-- Whether the event is an actuator invocation (any of the three call
outcomes, as opposed to the suppressed/skip case). -/
def TickEvent.isActCall : TickEvent → Bool
  | .suppressed _ _ _ => false
  | .switchOk _ _ _ => true
  | .switchHttpErr _ _ _ => true
  | .switchTransportErr _ _ _ => true

/-- The flow ip the event concerns. -/
def TickEvent.flowIp : TickEvent → String
  | .suppressed _ ip _ => ip
  | .switchOk _ ip _ => ip
  | .switchHttpErr _ ip _ => ip
  | .switchTransportErr _ ip _ => ip

/-- Inputs of one loop iteration: the outcomes of the three fetches, the
tick's clock reading, and the actuator's behaviour. -/
structure TickInputs where
  statusFetch : Except String StatusResponse
  tcpFetch : Except String (List PrometheusResult)
  networkFetch : Except String (List PrometheusResult)
  now : Nat
  actuate : String → String → ActResponse

instance {ε α : Type} [DecidableEq ε] [DecidableEq α] :
    DecidableEq (Except ε α) := fun x y =>
  match x, y with
  | Except.ok a, Except.ok b =>
      if h : a = b then isTrue (h ▸ rfl)
      else isFalse (fun hc => h (Except.ok.inj hc))
  | Except.error a, Except.error b =>
      if h : a = b then isTrue (h ▸ rfl)
      else isFalse (fun hc => h (Except.error.inj hc))
  | Except.ok _, Except.error _ => isFalse (fun hc => Except.noConfusion hc)
  | Except.error _, Except.ok _ => isFalse (fun hc => Except.noConfusion hc)

/-- Models `build_wan_to_nic_map` in `src/main.rs`. -/
def build_wan_to_nic_map (config : ConfigInfo) : List (String × String) :=
  [("wan0", config.wan0), ("wan1", config.wan1)]

/-- Models `build_ip_to_nic_map` in `src/main.rs`: for each `(ip, wan)`
mapping whose wan resolves to a nic, insert `ip → nic`. -/
def build_ip_to_nic_map (status : StatusResponse)
    (wanToNic : List (String × String)) : List (String × String) :=
  status.mappings.foldl
    (fun m p =>
      match lookupA wanToNic p.2 with
      | some nic => insertA m p.1 nic
      | none => m)
    []

/-- One step of the TCP bandwidth aggregation loop of `src/main.rs` (lines
135–143): if the sample carries an `interface` label, add its parsed value
(non-numeric → `0.0`) to that interface's `tcp_bandwidth` with `+=`. -/
def tcpStep (m : List (String × NicStats)) (r : PrometheusResult) :
    List (String × NicStats) :=
  match lookupA r.metric "interface" with
  | some interface =>
      updateA m interface
        (fun s => { s with tcp_bandwidth := s.tcp_bandwidth + r.value.getD 0 })
  | none => m

/-- Models the TCP bandwidth aggregation loop of `src/main.rs` (lines
135–143), folding `tcpStep` over the samples starting from the empty map. -/
def processTcp (results : List PrometheusResult) :
    List (String × NicStats) :=
  results.foldl tcpStep []

/-- The aggregated `tcp_bandwidth` of an interface, when it has an entry. -/
def tcpOf (m : List (String × NicStats)) (l : String) : Option ℚ :=
  (lookupA m l).map NicStats.tcp_bandwidth

/-- Whether some sample carries the given `interface` label. -/
def hasTcpLabel : List PrometheusResult → String → Bool
  | [], _ => false
  | r :: rs, l =>
      decide (lookupA r.metric "interface" = some l) || hasTcpLabel rs l

/-- The sum of the parse-defaulted values of the samples carrying the
given `interface` label. -/
def sumTcpVals : List PrometheusResult → String → ℚ
  | [], _ => 0
  | r :: rs, l =>
      (if lookupA r.metric "interface" = some l then r.value.getD 0 else 0) +
        sumTcpVals rs l

/-- Models the network data aggregation loop of `src/main.rs` (lines
152–169): for each sample with `__name__` and `ip_address` labels whose ip
maps to a nic, create the nic's entry (`entry().or_default()`) and add the
value to `tx_bps` or `rx_bps` according to the metric name. -/
def processNetwork (results : List PrometheusResult)
    (ipToNic : List (String × String)) (m0 : List (String × NicStats)) :
    List (String × NicStats) :=
  results.foldl
    (fun m r =>
      match lookupA r.metric "__name__", lookupA r.metric "ip_address" with
      | some name, some ip =>
          match lookupA ipToNic ip with
          | some nic =>
              let v := r.value.getD 0
              if name = "network_ip_tx_bps" then
                updateA m nic (fun s => { s with tx_bps := s.tx_bps + v })
              else if name = "network_ip_rx_bps" then
                updateA m nic (fun s => { s with rx_bps := s.rx_bps + v })
              else
                updateA m nic id
          | none => m
      | _, _ => m)
    m0

/-- Models the `ip_rx_list` construction of `src/main.rs` (lines 201–217):
all `network_ip_rx_bps` samples whose ip maps to the given nic, in sample
order, with parse-defaulted values. -/
def buildIpRxList (results : List PrometheusResult)
    (ipToNic : List (String × String)) (nic : String) : List (String × ℚ) :=
  results.foldl
    (fun acc r =>
      match lookupA r.metric "__name__", lookupA r.metric "ip_address" with
      | some name, some ip =>
          if name = "network_ip_rx_bps" then
            match lookupA ipToNic ip with
            | some mappedNic =>
                if mappedNic = nic then acc ++ [(ip, r.value.getD 0)] else acc
            | none => acc
          else acc
      | _, _ => acc)
    []

/-- The descending-by-RX comparison used by the `sort_by` call of
`src/main.rs` line 220 (`b.1.partial_cmp(&a.1)`). -/
def rxGE (a b : String × ℚ) : Prop := b.2 ≤ a.2

instance : DecidableRel rxGE := fun a b =>
  inferInstanceAs (Decidable (b.2 ≤ a.2))

instance : IsTotal (String × ℚ) rxGE := ⟨fun a b => le_total b.2 a.2⟩

instance : IsTrans (String × ℚ) rxGE := ⟨fun _ _ _ h1 h2 => le_trans h2 h1⟩

/-- Models `ip_rx_list.sort_by(descending comparator)` (a stable sort
descending by RX value). -/
def sortDesc (l : List (String × ℚ)) : List (String × ℚ) :=
  List.insertionSort rxGE l

/-- Lexicographic less-or-equal on character lists (by code point), the
order `nics.sort()` uses on interface names. -/
def strLeB : List Char → List Char → Bool
  | [], _ => true
  | _ :: _, [] => false
  | a :: as, b :: bs =>
      if a.toNat < b.toNat then true
      else if b.toNat < a.toNat then false
      else strLeB as bs

/-- Models the ascending comparison of `nics.sort()` on interface names. -/
def strLE (a b : String) : Prop := strLeB a.data b.data = true

instance : DecidableRel strLE := fun a b =>
  inferInstanceAs (Decidable (strLeB a.data b.data = true))

/-- Models `nics.sort()` of `src/main.rs` lines 174–175: the stats keys in
ascending order. -/
def sortedKeys (m : List (String × NicStats)) : List String :=
  List.insertionSort strLE (keysA m)

/-- Models the cooldown suppression check of `src/main.rs` lines 235–237:
some record for this ip is at most 30 seconds old. -/
def isSuppressed (history : List SwitchRecord) (ip : String) (now : Nat) :
    Bool :=
  history.any (fun r => decide (r.ip = ip) && decide (now - r.timestamp ≤ 30))

/-- Models the history cleanup of `src/main.rs` line 332:
`retain(|record| (now - record.timestamp) <= 30)`. -/
def evictExpired (history : List SwitchRecord) (now : Nat) :
    List SwitchRecord :=
  history.filter (fun r => decide (now - r.timestamp ≤ 30))

/-- One step of `iter().max_by(tcp_bandwidth comparator)`: keep the later
element when it compares greater or equal (Rust's `max_by` returns the
last of equally maximal elements). -/
def maxStep (acc : Option (String × NicStats)) (p : String × NicStats) :
    Option (String × NicStats) :=
  match acc with
  | none => some p
  | some q =>
      if q.2.tcp_bandwidth ≤ p.2.tcp_bandwidth then some p else some q

/-- Models `iter().max_by(tcp_bandwidth comparator)` of `src/main.rs`
lines 248–255. -/
def maxByTcp (l : List (String × NicStats)) : Option (String × NicStats) :=
  l.foldl maxStep none

/-- Models the target interface choice of `src/main.rs` lines 247–257:
among the stats entries excluding the current nic, the one with the highest
`tcp_bandwidth`; `unwrap_or_else(|| nic.clone())` falls back to the current
nic itself when no other entry exists. -/
def pickTargetNic (nicStats : List (String × NicStats)) (nic : String) :
    String :=
  match maxByTcp (nicStats.filter (fun p => decide (p.1 ≠ nic))) with
  | some p => p.1
  | none => nic

/-- Models the uplink resolution of `src/main.rs` lines 259–263: the first
wan whose nic equals the target, defaulting to `"wan0"`. -/
def resolveTargetWan (wanToNic : List (String × String))
    (targetNic : String) : String :=
  ((wanToNic.find? (fun p => decide (p.2 = targetNic))).map Prod.fst).getD
    "wan0"

/-- The three actuator-outcome branches of `src/main.rs` lines 271–291:
a successful response appends a `SwitchRecord`, an error status or a
transport error leaves the history unchanged. -/
def actOutcome (nic ip targetWan : String) (now : Nat)
    (history : List SwitchRecord) :
    ActResponse → List SwitchRecord × TickEvent
  | ActResponse.status true =>
      (history ++ [⟨ip, targetWan, now⟩], TickEvent.switchOk nic ip targetWan)
  | ActResponse.status false =>
      (history, TickEvent.switchHttpErr nic ip targetWan)
  | ActResponse.err =>
      (history, TickEvent.switchTransportErr nic ip targetWan)

/-- Models the per-interface body of `src/main.rs` lines 200–292: build and
sort the ip RX list, iterate `ip_rx_list[0..1]` (panics when the list is
empty), skip if the top flow switched within the last 30 seconds, otherwise
pick the target nic, resolve its uplink, call the actuator, and on success
push a `SwitchRecord`. -/
def processNic (networkResults : List PrometheusResult)
    (ipToNic : List (String × String)) (nicStats : List (String × NicStats))
    (wanToNic : List (String × String)) (now : Nat)
    (actuate : String → String → ActResponse) (nic : String)
    (history : List SwitchRecord) :
    Except TickErr (List SwitchRecord × TickEvent) :=
  let ipRxList := sortDesc (buildIpRxList networkResults ipToNic nic)
  match ipRxList with
  | [] =>
      Except.error
        (TickErr.panic "range end index 1 out of range for slice of length 0")
  | (ip, rx) :: _ =>
      if isSuppressed history ip now then
        Except.ok (history, TickEvent.suppressed nic ip rx)
      else
        let targetNic := pickTargetNic nicStats nic
        let targetWan := resolveTargetWan wanToNic targetNic
        Except.ok (actOutcome nic ip targetWan now history (actuate ip targetWan))

/-- The per-interface step of the tick's `for nic in nics` loop: thread the
history through `processNic` and append the interface's event. -/
def nicStep (networkResults : List PrometheusResult)
    (ipToNic : List (String × String)) (nicStats : List (String × NicStats))
    (wanToNic : List (String × String)) (now : Nat)
    (actuate : String → String → ActResponse)
    (acc : List SwitchRecord × List TickEvent) (nic : String) :
    Except TickErr (List SwitchRecord × List TickEvent) := do
  let (h2, ev) ←
    processNic networkResults ipToNic nicStats wanToNic now actuate nic acc.1
  pure (h2, acc.2 ++ [ev])

/-- One loop iteration of `src/main.rs` up to (but excluding) the final
history cleanup: the three fetches (each `?` propagates its error), the two
aggregations, and the per-interface processing in ascending nic order. -/
def tickBody (inp : TickInputs) (history : List SwitchRecord) :
    Except TickErr (List SwitchRecord × List TickEvent) := do
  let status ← inp.statusFetch.mapError TickErr.fetchErr
  let wanToNic := build_wan_to_nic_map status.config
  let ipToNic := build_ip_to_nic_map status wanToNic
  let tcpResults ← inp.tcpFetch.mapError TickErr.fetchErr
  let afterTcp := processTcp tcpResults
  let networkResults ← inp.networkFetch.mapError TickErr.fetchErr
  let nicStats := processNetwork networkResults ipToNic afterTcp
  let nics := sortedKeys nicStats
  nics.foldlM
    (nicStep networkResults ipToNic nicStats wanToNic inp.now inp.actuate)
    (history, ([] : List TickEvent))

/-- One full loop iteration of `src/main.rs` lines 112–336: the body
followed by the once-per-tick history cleanup at tick end (line 332). -/
def tick (inp : TickInputs) (history : List SwitchRecord) :
    Except TickErr (List SwitchRecord × List TickEvent) :=
  (tickBody inp history).map (fun p => (evictExpired p.1 inp.now, p.2))

/-- The orchestrator loop of `src/main.rs` over a list of tick inputs:
`main` uses `?` on every fetch, so the first tick error ends the run
(the `Result` escapes `main` and the process terminates). -/
def runTicks (inps : List TickInputs) (history : List SwitchRecord) :
    Except TickErr (List SwitchRecord) :=
  inps.foldlM (fun h inp => (tick inp h).map Prod.fst) history

/-- The overload predicate of the specification applied to a tick's
per-interface stats: actual RX + TX strictly greater than the estimated
capacity (the `tcp_bandwidth` aggregate).  This is the `exceeded` test of
`src/monitor.rs` line 87 transplanted to `NicStats`. -/
def isOverloadedStats (s : NicStats) : Bool :=
  decide (s.tcp_bandwidth < s.rx_bps + s.tx_bps)

/-! ## The historical monitor variant (`src/monitor.rs`) -/

/-- Models `BandwidthMetric` in `src/prometheus.rs`. -/
structure BandwidthMetric where
  interface : String
  value : ℚ
deriving DecidableEq

/-- Models `BandwidthComparison` in `src/monitor.rs`. -/
structure BandwidthComparison where
  nic : String
  interface : String
  estimated_bandwidth : ℚ
  actual_rx : ℚ
  actual_tx : ℚ
  actual_total : ℚ
  exceeded : Bool
deriving DecidableEq

/-- Models `get_tcp_bandwidth_avg` in `src/prometheus.rs` lines 78–94:
keep samples that have an `interface` label and a numeric value
(`parse::<f64>().ok()?` drops non-numeric samples). -/
def get_tcp_bandwidth_avg (results : List PrometheusResult) :
    List BandwidthMetric :=
  results.filterMap
    (fun r =>
      match lookupA r.metric "interface", r.value with
      | some i, some v => some ⟨i, v⟩
      | _, _ => none)

/-- Models the `bandwidth_map` construction of `src/monitor.rs` lines
68–71: `HashMap::insert` per metric (replace on duplicate key). -/
def buildBandwidthMap (metrics : List BandwidthMetric) :
    List (String × ℚ) :=
  metrics.foldl (fun m bm => insertA m bm.interface bm.value) []

/-- Models the loop body of `compare_bandwidth` in `src/monitor.rs` lines
84–98 for one `(nic, (rx, tx))` entry: estimated capacity defaults to `0.0`
when the nic has no entry in the bandwidth map, and
`exceeded = actual_total > estimated`. -/
def compareOne (bandwidthMap : List (String × ℚ)) (nic : String)
    (rx tx : ℚ) : BandwidthComparison :=
  let estimated := (lookupA bandwidthMap nic).getD 0
  let actual_total := rx + tx
  { nic := nic
    interface := nic
    estimated_bandwidth := estimated
    actual_rx := rx
    actual_tx := tx
    actual_total := actual_total
    exceeded := decide (estimated < actual_total) }

/-- Models `compare_bandwidth` in `src/monitor.rs` as a function of the
fetched data: the tcp metrics and the per-nic `(rx, tx)` totals. -/
def compare_bandwidth (tcpMetrics : List BandwidthMetric)
    (networkTotals : List (String × ℚ × ℚ)) : List BandwidthComparison :=
  networkTotals.map
    (fun t => compareOne (buildBandwidthMap tcpMetrics) t.1 t.2.1 t.2.2)

/-! ## Concrete scenarios used by counterexamples and witnesses -/

/-- A tick whose topology (status) fetch fails. -/
def inpC1bad : TickInputs :=
  ⟨Except.error "connection refused", Except.ok [], Except.ok [], 0,
    fun _ _ => ActResponse.err⟩

/-- A tick with empty but successful fetches; it completes normally. -/
def inpC1good : TickInputs :=
  ⟨Except.ok ⟨⟨"br0", "eth0", "eth1"⟩, []⟩, Except.ok [], Except.ok [], 1,
    fun _ _ => ActResponse.err⟩

/-- A tick whose topology fetch succeeds but whose tcp (capacity) fetch
fails. -/
def inpC1tcp : TickInputs :=
  ⟨Except.ok ⟨⟨"br0", "eth0", "eth1"⟩, []⟩, Except.error "prometheus down",
    Except.ok [], 2, fun _ _ => ActResponse.err⟩

/-- A tick whose topology and tcp fetches succeed but whose network
(usage) fetch fails. -/
def inpC1net : TickInputs :=
  ⟨Except.ok ⟨⟨"br0", "eth0", "eth1"⟩, []⟩, Except.ok [],
    Except.error "packetdump down", 3, fun _ _ => ActResponse.err⟩

/-- Topology for the failing-actuator tick. -/
def stC1act : StatusResponse :=
  ⟨⟨"br0", "eth0", "eth1"⟩, [("10.0.0.9", "wan0")]⟩

/-- Capacity sample for the failing-actuator tick. -/
def tcpC1act : List PrometheusResult :=
  [⟨[("interface", "eth0")], some 100⟩]

/-- Usage sample for the failing-actuator tick. -/
def netC1act : List PrometheusResult :=
  [⟨[("__name__", "network_ip_rx_bps"), ("ip_address", "10.0.0.9")], some 7⟩]

/-- A tick whose fetches all succeed but whose actuator call fails with a
transport error: the tick still completes normally. -/
def inpC1act : TickInputs :=
  ⟨Except.ok stC1act, Except.ok tcpC1act, Except.ok netC1act, 4,
    fun _ _ => ActResponse.err⟩

/-- Topology for the single-interface scenario: one flow on `wan0`. -/
def stC2 : StatusResponse :=
  ⟨⟨"br0", "eth0", "eth1"⟩, [("10.0.0.1", "wan0")]⟩

/-- Capacity samples: only `eth0` has one. -/
def tcpC2 : List PrometheusResult :=
  [⟨[("interface", "eth0")], some 100⟩]

/-- Usage samples: one RX sample for the flow on `eth0`. -/
def netC2 : List PrometheusResult :=
  [⟨[("__name__", "network_ip_rx_bps"), ("ip_address", "10.0.0.1")], some 7⟩]

/-- Single-interface tick: `eth0` is the only interface in the stats. -/
def inpC2 : TickInputs :=
  ⟨Except.ok stC2, Except.ok tcpC2, Except.ok netC2, 10,
    fun _ _ => ActResponse.status true⟩

/-- Topology for the no-overload scenario: one flow on each uplink. -/
def stC3 : StatusResponse :=
  ⟨⟨"br0", "eth0", "eth1"⟩, [("10.0.0.1", "wan0"), ("10.0.0.2", "wan1")]⟩

/-- Capacity samples: `eth0` has capacity 100, `eth1` has 50. -/
def tcpC3 : List PrometheusResult :=
  [⟨[("interface", "eth0")], some 100⟩, ⟨[("interface", "eth1")], some 50⟩]

/-- Usage samples: RX 7 on `eth0`'s flow, RX 1 on `eth1`'s flow, so no
interface is overloaded. -/
def netC3 : List PrometheusResult :=
  [⟨[("__name__", "network_ip_rx_bps"), ("ip_address", "10.0.0.1")], some 7⟩,
   ⟨[("__name__", "network_ip_rx_bps"), ("ip_address", "10.0.0.2")], some 1⟩]

/-- A tick in which no interface is overloaded, every actuator call
succeeds. -/
def inpC3 : TickInputs :=
  ⟨Except.ok stC3, Except.ok tcpC3, Except.ok netC3, 20,
    fun _ _ => ActResponse.status true⟩

/-- The ip → nic map of the `inpC3` tick. -/
def ipToNicC3 : List (String × String) :=
  build_ip_to_nic_map stC3 (build_wan_to_nic_map stC3.config)

/-- Topology for the suppressed-top-flow scenario: two flows on `wan0`. -/
def stC4 : StatusResponse :=
  ⟨⟨"br0", "eth0", "eth1"⟩, [("10.0.0.1", "wan0"), ("10.0.0.2", "wan0")]⟩

/-- Capacity sample for `eth0`. -/
def tcpC4 : List PrometheusResult :=
  [⟨[("interface", "eth0")], some 100⟩]

/-- Usage samples: the top flow has RX 10, the next one RX 5. -/
def netC4 : List PrometheusResult :=
  [⟨[("__name__", "network_ip_rx_bps"), ("ip_address", "10.0.0.1")], some 10⟩,
   ⟨[("__name__", "network_ip_rx_bps"), ("ip_address", "10.0.0.2")], some 5⟩]

/-- Tick at time 100 for the suppressed-top-flow scenario. -/
def inpC4 : TickInputs :=
  ⟨Except.ok stC4, Except.ok tcpC4, Except.ok netC4, 100,
    fun _ _ => ActResponse.status true⟩

/-- History holding a 5-second-old record for the top flow `10.0.0.1`. -/
def histC4 : List SwitchRecord := [⟨"10.0.0.1", "wan1", 95⟩]

/-- Topology with no flow mappings at all. -/
def stC5 : StatusResponse := ⟨⟨"br0", "eth0", "eth1"⟩, []⟩

/-- A capacity sample for `eth0`, which therefore appears in the stats
while no RX sample maps to it. -/
def tcpC5 : List PrometheusResult :=
  [⟨[("interface", "eth0")], some 5⟩]

/-- A tick in which `eth0` has stats but an empty per-flow RX list. -/
def inpC5 : TickInputs :=
  ⟨Except.ok stC5, Except.ok tcpC5, Except.ok [], 0,
    fun _ _ => ActResponse.err⟩

/-- Topology for the cooldown-recording scenario. -/
def stC6 : StatusResponse :=
  ⟨⟨"br0", "eth0", "eth1"⟩, [("10.0.0.6", "wan0")]⟩

/-- Capacity sample for the cooldown-recording scenario. -/
def tcpC6 : List PrometheusResult :=
  [⟨[("interface", "eth0")], some 100⟩]

/-- Usage sample for the cooldown-recording scenario. -/
def netC6 : List PrometheusResult :=
  [⟨[("__name__", "network_ip_rx_bps"), ("ip_address", "10.0.0.6")], some 7⟩]

/-- A tick at time 10 whose single actuator call succeeds, creating a
`SwitchRecord` timestamped with the tick's own clock. -/
def inpC6 : TickInputs :=
  ⟨Except.ok stC6, Except.ok tcpC6, Except.ok netC6, 10,
    fun _ _ => ActResponse.status true⟩

/-- Usage samples for the per-interface (`processNic`) witnesses: one RX
sample of value 3 for flow `w1`. -/
def netW : List PrometheusResult :=
  [⟨[("__name__", "network_ip_rx_bps"), ("ip_address", "w1")], some 3⟩]

/-- The ip → nic map for the `processNic` witnesses. -/
def ipToNicW : List (String × String) := [("w1", "eth0")]

/-- Stats for the `processNic` witnesses: `eth1` has the higher estimated
capacity and is the expected target. -/
def statsW : List (String × NicStats) :=
  [("eth0", ⟨1, 0, 3⟩), ("eth1", ⟨9, 0, 0⟩)]

/-- The wan → nic map for the `processNic` witnesses. -/
def wanToNicW : List (String × String) := [("wan0", "eth0"), ("wan1", "eth1")]

/-- A history suppressing flow `w1` at time 5 (record 5 seconds old). -/
def histW : List SwitchRecord := [⟨"w1", "wan1", 0⟩]

/-- Capacity metrics for the monitor-variant witness. -/
def tcpMetricsW : List BandwidthMetric := [⟨"eth0", 100⟩]

/-- Per-nic totals for the monitor-variant witness: RX 60, TX 50 on
`eth0`, exceeding its capacity 100. -/
def totalsW : List (String × ℚ × ℚ) := [("eth0", (60, 50))]

/-- Capacity samples for the missing-capacity witness: the only sample for
`eth2` is non-numeric. -/
def resultsW9 : List PrometheusResult := [⟨[("interface", "eth2")], none⟩]
/-! ## Association list lemmas -/

theorem lookupA_nil {α : Type} (l : String) : lookupA ([] : List (String × α)) l = none := rfl

theorem lookupA_cons {α : Type} (k' : String) (v' : α) (rest : List (String × α)) (l : String) :
    lookupA ((k', v') :: rest) l = if k' = l then some v' else lookupA rest l := by
  by_cases h : k' = l
  · simp [lookupA, List.find?, h]
  · simp [lookupA, List.find?, h]

theorem lookupA_insertA {α : Type} (m : List (String × α)) (k l : String)
    (v : α) :
    lookupA (insertA m k v) l = if k = l then some v else lookupA m l := by
  induction m with
  | nil =>
      simp only [insertA, lookupA_cons, lookupA_nil]
  | cons p rest ih =>
      obtain ⟨k', v'⟩ := p
      simp only [insertA]
      by_cases hk : k' = k
      · rw [if_pos hk]
        subst hk
        rw [lookupA_cons, lookupA_cons]
        by_cases hl : k' = l <;> simp [hl]
      · rw [if_neg hk]
        rw [lookupA_cons, lookupA_cons, ih]
        by_cases hl : k' = l
        · have hkl : k ≠ l := fun h => hk (by rw [hl, h])
          simp [hl, hkl]
        · simp [hl]

theorem lookupA_updateA_self {α : Type} [Inhabited α]
    (m : List (String × α)) (k : String) (f : α → α) :
    lookupA (updateA m k f) k = some (f ((lookupA m k).getD default)) := by
  induction m with
  | nil =>
      simp only [updateA, lookupA_cons, lookupA_nil]
      simp
  | cons p rest ih =>
      obtain ⟨k', v'⟩ := p
      simp only [updateA]
      by_cases hk : k' = k
      · rw [if_pos hk]
        subst hk
        rw [lookupA_cons, lookupA_cons]
        simp
      · rw [if_neg hk]
        rw [lookupA_cons, lookupA_cons, ih]
        simp [hk]

theorem lookupA_updateA_ne {α : Type} [Inhabited α]
    (m : List (String × α)) (k l : String) (f : α → α) (h : k ≠ l) :
    lookupA (updateA m k f) l = lookupA m l := by
  induction m with
  | nil =>
      simp only [updateA, lookupA_cons, lookupA_nil]
      simp [h]
  | cons p rest ih =>
      obtain ⟨k', v'⟩ := p
      simp only [updateA]
      by_cases hk : k' = k
      · rw [if_pos hk]
        subst hk
        rw [lookupA_cons, lookupA_cons]
        simp [h]
      · rw [if_neg hk]
        rw [lookupA_cons, lookupA_cons, ih]

/-! ## maxByTcp lemmas -/

theorem foldl_maxStep_some (l : List (String × NicStats))
    (q : String × NicStats) :
    ∃ x, l.foldl maxStep (some q) = some x ∧ (x = q ∨ x ∈ l) := by
  induction l generalizing q with
  | nil => exact ⟨q, rfl, Or.inl rfl⟩
  | cons p rest ih =>
      show ∃ x, rest.foldl maxStep (maxStep (some q) p) = some x ∧ _
      by_cases hc : q.2.tcp_bandwidth ≤ p.2.tcp_bandwidth
      · have hstep : maxStep (some q) p = some p := by simp [maxStep, hc]
        rw [hstep]
        obtain ⟨x, hx, hmem⟩ := ih p
        refine ⟨x, hx, Or.inr ?_⟩
        rcases hmem with h | h
        · exact h ▸ List.mem_cons_self p rest
        · exact List.mem_cons_of_mem p h
      · have hstep : maxStep (some q) p = some q := by simp [maxStep, hc]
        rw [hstep]
        obtain ⟨x, hx, hmem⟩ := ih q
        refine ⟨x, hx, ?_⟩
        rcases hmem with h | h
        · exact Or.inl h
        · exact Or.inr (List.mem_cons_of_mem p h)

theorem maxByTcp_mem (l : List (String × NicStats)) (hne : l ≠ []) :
    ∃ x, maxByTcp l = some x ∧ x ∈ l := by
  match l with
  | [] => exact absurd rfl hne
  | p :: rest =>
      show ∃ x, rest.foldl maxStep (maxStep none p) = some x ∧ x ∈ p :: rest
      have hstep : maxStep none p = some p := rfl
      rw [hstep]
      obtain ⟨x, hx, hmem⟩ := foldl_maxStep_some rest p
      refine ⟨x, hx, ?_⟩
      rcases hmem with h | h
      · exact h ▸ List.mem_cons_self p rest
      · exact List.mem_cons_of_mem p h

/-! ## processTcp aggregation lemma -/

theorem tcpOf_foldl_tcpStep (results : List PrometheusResult)
    (m : List (String × NicStats)) (l : String) :
    tcpOf (results.foldl tcpStep m) l =
      match tcpOf m l with
      | some v => some (v + sumTcpVals results l)
      | none =>
          if hasTcpLabel results l then some (sumTcpVals results l) else none := by
  induction results generalizing m with
  | nil =>
      cases h : tcpOf m l <;> simp [sumTcpVals, hasTcpLabel, h]
  | cons r rs ih =>
      show tcpOf (rs.foldl tcpStep (tcpStep m r)) l = _
      rw [ih]
      cases hi : lookupA r.metric "interface" with
      | none =>
          have hstep : tcpStep m r = m := by simp [tcpStep, hi]
          rw [hstep]
          have hsum : sumTcpVals (r :: rs) l = sumTcpVals rs l := by
            simp [sumTcpVals, hi]
          have hlab : hasTcpLabel (r :: rs) l = hasTcpLabel rs l := by
            simp [hasTcpLabel, hi]
          rw [hsum, hlab]
      | some i =>
          by_cases hil : i = l
          · subst hil
            have hstep : tcpStep m r =
                updateA m i
                  (fun s => { s with
                    tcp_bandwidth := s.tcp_bandwidth + r.value.getD 0 }) := by
              simp [tcpStep, hi]
            rw [hstep]
            have hsum : sumTcpVals (r :: rs) i =
                r.value.getD 0 + sumTcpVals rs i := by
              simp [sumTcpVals, hi]
            have hlab : hasTcpLabel (r :: rs) i = true := by
              simp [hasTcpLabel, hi]
            rw [hsum, hlab]
            have hupd := lookupA_updateA_self m i
              (fun s => { s with
                tcp_bandwidth := s.tcp_bandwidth + r.value.getD 0 })
            cases hm : lookupA m i with
            | none =>
                have : tcpOf (updateA m i
                    (fun s => { s with
                      tcp_bandwidth := s.tcp_bandwidth + r.value.getD 0 })) i =
                    some (r.value.getD 0) := by
                  rw [hm] at hupd
                  simp [tcpOf, hupd]
                  rfl
                rw [this]
                simp [tcpOf, hm, add_assoc]
            | some s =>
                have : tcpOf (updateA m i
                    (fun s => { s with
                      tcp_bandwidth := s.tcp_bandwidth + r.value.getD 0 })) i =
                    some (s.tcp_bandwidth + r.value.getD 0) := by
                  rw [hm] at hupd
                  simp [tcpOf, hupd]
                rw [this]
                simp [tcpOf, hm, add_assoc]
          · have hstep : tcpStep m r =
                updateA m i
                  (fun s => { s with
                    tcp_bandwidth := s.tcp_bandwidth + r.value.getD 0 }) := by
              simp [tcpStep, hi]
            rw [hstep]
            have hsum : sumTcpVals (r :: rs) l = sumTcpVals rs l := by
              simp [sumTcpVals, hi, hil]
            have hlab : hasTcpLabel (r :: rs) l = hasTcpLabel rs l := by
              simp [hasTcpLabel, hi, hil]
            have hlook : tcpOf (updateA m i
                (fun s => { s with
                  tcp_bandwidth := s.tcp_bandwidth + r.value.getD 0 })) l =
                tcpOf m l := by
              simp [tcpOf, lookupA_updateA_ne _ _ _ _ hil]
            rw [hsum, hlab, hlook]

/-! ## Bandwidth map lemmas (monitor variant) -/

theorem lookupA_buildBandwidthMap_none (metrics : List BandwidthMetric)
    (nic : String) (h : ∀ bm ∈ metrics, bm.interface ≠ nic) :
    lookupA (buildBandwidthMap metrics) nic = none := by
  suffices haux : ∀ (ms : List BandwidthMetric) (m : List (String × ℚ)),
      (∀ bm ∈ ms, bm.interface ≠ nic) →
      lookupA (ms.foldl (fun m bm => insertA m bm.interface bm.value) m) nic =
        lookupA m nic by
    exact (haux metrics [] h).trans (lookupA_nil nic)
  intro ms
  induction ms with
  | nil => intro m _; rfl
  | cons bm rest ih =>
      intro m hms
      show lookupA (rest.foldl _ (insertA m bm.interface bm.value)) nic = _
      rw [ih (insertA m bm.interface bm.value)
        (fun b hb => hms b (List.mem_cons_of_mem bm hb))]
      rw [lookupA_insertA]
      simp [hms bm (List.mem_cons_self bm rest)]

theorem get_tcp_no_interface (results : List PrometheusResult) (nic : String)
    (h : ∀ r ∈ results, lookupA r.metric "interface" = some nic →
      r.value = none) :
    ∀ bm ∈ get_tcp_bandwidth_avg results, bm.interface ≠ nic := by
  intro bm hbm heq
  simp only [get_tcp_bandwidth_avg, List.mem_filterMap] at hbm
  obtain ⟨r, hr, hf⟩ := hbm
  cases hi : lookupA r.metric "interface" with
  | none => rw [hi] at hf; simp at hf
  | some i =>
      cases hv : r.value with
      | none => rw [hi, hv] at hf; simp at hf
      | some v =>
          rw [hi, hv] at hf
          simp at hf
          have hbi : i = bm.interface := by rw [← hf]
          have : i = nic := hbi.trans heq
          exact absurd (h r hr (this ▸ hi)) (by simp [hv])

/-! ## Claim theorems -/

/-- C7: for every comparison record produced by `compare_bandwidth`, the
`exceeded` flag is true iff actual RX + TX is strictly greater than the
estimated capacity; equality is not overload. -/
theorem c7_overload_boundary (tcpMetrics : List BandwidthMetric)
    (totals : List (String × ℚ × ℚ)) (c : BandwidthComparison)
    (hc : c ∈ compare_bandwidth tcpMetrics totals) :
    (c.exceeded = true ↔ c.estimated_bandwidth < c.actual_rx + c.actual_tx)
    ∧ (c.actual_rx + c.actual_tx = c.estimated_bandwidth → c.exceeded = false)
    ∧ c.actual_total = c.actual_rx + c.actual_tx := by
  simp only [compare_bandwidth, List.mem_map] at hc
  obtain ⟨t, ht, rfl⟩ := hc
  refine ⟨?_, ?_, rfl⟩
  · simp [compareOne]
  · intro hEq
    simp only [compareOne] at hEq ⊢
    rw [hEq]
    simp

/-- C9: an interface with no numeric capacity sample gets estimated
capacity 0, and any strictly positive usage marks it overloaded. -/
theorem c9_missing_capacity_zero (results : List PrometheusResult)
    (nic : String) (rx tx : ℚ)
    (h : ∀ r ∈ results, lookupA r.metric "interface" = some nic →
      r.value = none) :
    (compareOne (buildBandwidthMap (get_tcp_bandwidth_avg results)) nic rx
        tx).estimated_bandwidth = 0
    ∧ (0 < rx + tx →
        (compareOne (buildBandwidthMap (get_tcp_bandwidth_avg results)) nic rx
          tx).exceeded = true) := by
  have hnone := lookupA_buildBandwidthMap_none _ nic
    (get_tcp_no_interface results nic h)
  constructor
  · simp [compareOne, hnone]
  · intro hpos
    simp [compareOne, hnone, hpos]

/-- C10: the aggregated `tcp_bandwidth` of an interface is the sum of the
parse-defaulted values of every sample carrying that interface label. -/
theorem c10_capacity_sum (results : List PrometheusResult) (l : String) :
    tcpOf (processTcp results) l =
      if hasTcpLabel results l then some (sumTcpVals results l) else none := by
  rw [processTcp, tcpOf_foldl_tcpStep]
  rfl

/-- C2 (amended): whenever at least one other interface is present in the
stats, the picked target is never the current interface. -/
theorem c2_amended_target_excludes_current
    (nicStats : List (String × NicStats)) (nic : String)
    (h : ∃ p ∈ nicStats, p.1 ≠ nic) :
    pickTargetNic nicStats nic ≠ nic := by
  obtain ⟨p, hp, hne⟩ := h
  have hmem : p ∈ nicStats.filter (fun q => decide (q.1 ≠ nic)) :=
    List.mem_filter.2 ⟨hp, by simp [hne]⟩
  have hfne : nicStats.filter (fun q => decide (q.1 ≠ nic)) ≠ [] :=
    List.ne_nil_of_mem hmem
  obtain ⟨x, hx, hxmem⟩ := maxByTcp_mem _ hfne
  have hx1 := (List.mem_filter.1 hxmem).2
  simp only [pickTargetNic, hx]
  simpa using hx1

/-- C3 (amended): an actuator call is made for an interface exactly when
its sorted per-flow RX list is nonempty and its head flow is not
suppressed; no overload condition gates the call. -/
theorem c3_amended_actuation_gating
    (netRes : List PrometheusResult) (ipToNic : List (String × String))
    (nicStats : List (String × NicStats)) (wanToNic : List (String × String))
    (now : Nat) (actuate : String → String → ActResponse) (nic : String)
    (history h' : List SwitchRecord) (ev : TickEvent)
    (hok : processNic netRes ipToNic nicStats wanToNic now actuate nic
      history = Except.ok (h', ev))
    (hcall : ev.isActCall = true) :
    ∃ ip rx rest,
      sortDesc (buildIpRxList netRes ipToNic nic) = (ip, rx) :: rest
      ∧ ev.flowIp = ip ∧ isSuppressed history ip now = false := by
  simp only [processNic] at hok
  cases hs : sortDesc (buildIpRxList netRes ipToNic nic) with
  | nil => rw [hs] at hok; simp at hok
  | cons hd tl =>
      obtain ⟨ip, rx⟩ := hd
      rw [hs] at hok
      cases hsup : isSuppressed history ip now with
      | true =>
          simp [hsup] at hok
          obtain ⟨-, hev⟩ := hok
          rw [← hev] at hcall
          simp [TickEvent.isActCall] at hcall
      | false =>
          simp only [hsup, if_false, Bool.false_eq_true] at hok
          refine ⟨ip, rx, tl, rfl, ?_, hsup⟩
          have hev : ev = (actOutcome nic ip
              (resolveTargetWan wanToNic (pickTargetNic nicStats nic)) now
              history
              (actuate ip
                (resolveTargetWan wanToNic (pickTargetNic nicStats nic)))).2 := by
            simp only [Except.ok.injEq] at hok
            exact (congrArg Prod.snd hok).symm
          rw [hev]
          cases actuate ip
            (resolveTargetWan wanToNic (pickTargetNic nicStats nic)) with
          | err => rfl
          | status b => cases b <;> rfl

/-- C4 (amended): the selector sorts the RX list descending and considers
only its head; when the head flow is suppressed, no candidate is produced,
the history is unchanged, and nothing further is tried. -/
theorem c4_amended_top_flow_only
    (netRes : List PrometheusResult) (ipToNic : List (String × String))
    (nicStats : List (String × NicStats)) (wanToNic : List (String × String))
    (now : Nat) (actuate : String → String → ActResponse) (nic : String)
    (history : List SwitchRecord) (ip : String) (rx : ℚ)
    (rest : List (String × ℚ))
    (hsort : sortDesc (buildIpRxList netRes ipToNic nic) = (ip, rx) :: rest)
    (hsup : isSuppressed history ip now = true) :
    processNic netRes ipToNic nicStats wanToNic now actuate nic history =
      Except.ok (history, TickEvent.suppressed nic ip rx)
    ∧ List.Sorted rxGE (sortDesc (buildIpRxList netRes ipToNic nic)) := by
  constructor
  · simp only [processNic]
    rw [hsort]
    simp [hsup]
  · rw [sortDesc]
    exact List.sorted_insertionSort rxGE _

/-- C8: when the head flow of the sorted RX list is not suppressed, the
actuator is called on it; a success appends a `SwitchRecord` with the flow,
the resolved target uplink and the tick time, while an HTTP error or a
transport error leaves the history unchanged. -/
theorem c8_actuator_recording
    (netRes : List PrometheusResult) (ipToNic : List (String × String))
    (nicStats : List (String × NicStats)) (wanToNic : List (String × String))
    (now : Nat) (actuate : String → String → ActResponse) (nic : String)
    (history : List SwitchRecord) (ip : String) (rx : ℚ)
    (rest : List (String × ℚ)) (resp : ActResponse)
    (hsort : sortDesc (buildIpRxList netRes ipToNic nic) = (ip, rx) :: rest)
    (hsup : isSuppressed history ip now = false)
    (hact : actuate ip
      (resolveTargetWan wanToNic (pickTargetNic nicStats nic)) = resp) :
    processNic netRes ipToNic nicStats wanToNic now actuate nic history =
      Except.ok (actOutcome nic ip
        (resolveTargetWan wanToNic (pickTargetNic nicStats nic)) now history
        resp)
    ∧ actOutcome nic ip
        (resolveTargetWan wanToNic (pickTargetNic nicStats nic)) now history
        (ActResponse.status true) =
      (history ++
        [⟨ip, resolveTargetWan wanToNic (pickTargetNic nicStats nic), now⟩],
       TickEvent.switchOk nic ip
         (resolveTargetWan wanToNic (pickTargetNic nicStats nic)))
    ∧ actOutcome nic ip
        (resolveTargetWan wanToNic (pickTargetNic nicStats nic)) now history
        (ActResponse.status false) =
      (history,
       TickEvent.switchHttpErr nic ip
         (resolveTargetWan wanToNic (pickTargetNic nicStats nic)))
    ∧ actOutcome nic ip
        (resolveTargetWan wanToNic (pickTargetNic nicStats nic)) now history
        ActResponse.err =
      (history,
       TickEvent.switchTransportErr nic ip
         (resolveTargetWan wanToNic (pickTargetNic nicStats nic))) := by
  refine ⟨?_, rfl, rfl, rfl⟩
  simp only [processNic]
  rw [hsort]
  simp only [hsup, if_false, Bool.false_eq_true]
  rw [hact]

/-- C6: a `SwitchRecord` timestamped `T` suppresses its flow at any query
time `now` with `now - T ≤ 30` and only then; eviction removes it exactly
when `now - T > 30`; it is suppressed at `T + 29` and gone after eviction
at `T + 31`; a tick evicts exactly once at tick end, and a record created
at the tick's own time always survives that eviction. -/
theorem c6_cooldown_window (ip wan : String) (T now : Nat)
    (hT : T ≤ now) (hist : List SwitchRecord) (inp : TickInputs)
    (h0 histB : List SwitchRecord) (evs : List TickEvent) (r : SwitchRecord)
    (hbody : tickBody inp h0 = Except.ok (histB, evs))
    (hr : r ∈ histB) (hts : r.timestamp = inp.now) :
    (isSuppressed [⟨ip, wan, T⟩] ip now = true ↔ now - T ≤ 30)
    ∧ (evictExpired [⟨ip, wan, T⟩] now = [] ↔ 30 < now - T)
    ∧ isSuppressed [⟨ip, wan, T⟩] ip (T + 29) = true
    ∧ evictExpired [⟨ip, wan, T⟩] (T + 31) = []
    ∧ (⟨ip, wan, now⟩ : SwitchRecord) ∈
        evictExpired (hist ++ [⟨ip, wan, now⟩]) now
    ∧ tick inp h0 = Except.ok (evictExpired histB inp.now, evs)
    ∧ r ∈ evictExpired histB inp.now := by
  have h29 : T + 29 - T = 29 := by omega
  have h31 : T + 31 - T = 31 := by omega
  refine ⟨?_, ?_, ?_, ?_, ?_, ?_, ?_⟩
  · simp [isSuppressed]
  · rw [evictExpired, List.filter_eq_nil_iff]
    constructor
    · intro hall
      have := hall ⟨ip, wan, T⟩ (List.mem_singleton_self _)
      simp at this
      omega
    · intro hgt rec hrec
      simp at hrec
      subst hrec
      simp
      omega
  · simp [isSuppressed]
    omega
  · simp [evictExpired, List.filter, h31]
  · simp [evictExpired, List.filter_append, List.filter, Nat.sub_self]
  · simp [tick, hbody, Except.map]
  · exact List.mem_filter.2 ⟨hr, by simp [hts]⟩

/-- A run whose first tick fails ends immediately with that error. -/
theorem runTicks_cons_error (inp : TickInputs) (rest : List TickInputs)
    (history : List SwitchRecord) (err : TickErr)
    (h : tick inp history = Except.error err) :
    runTicks (inp :: rest) history = Except.error err := by
  simp [runTicks, List.foldlM_cons, h, Except.map, Bind.bind, Except.bind]

/-- On a nonempty sorted RX list, `processNic` always succeeds, whatever
the actuator returns. -/
theorem processNic_ok (netRes : List PrometheusResult)
    (ipToNic : List (String × String)) (nicStats : List (String × NicStats))
    (wanToNic : List (String × String)) (now : Nat)
    (actuate : String → String → ActResponse) (nic : String)
    (history : List SwitchRecord)
    (hne : sortDesc (buildIpRxList netRes ipToNic nic) ≠ []) :
    ∃ p, processNic netRes ipToNic nicStats wanToNic now actuate nic
      history = Except.ok p := by
  cases hs : sortDesc (buildIpRxList netRes ipToNic nic) with
  | nil => exact absurd hs hne
  | cons hd tl =>
      obtain ⟨ip, rx⟩ := hd
      cases hsup : isSuppressed history ip now with
      | true =>
          refine ⟨(history, TickEvent.suppressed nic ip rx), ?_⟩
          simp only [processNic]
          rw [hs]
          simp [hsup]
      | false =>
          refine ⟨actOutcome nic ip
            (resolveTargetWan wanToNic (pickTargetNic nicStats nic)) now
            history
            (actuate ip
              (resolveTargetWan wanToNic (pickTargetNic nicStats nic))), ?_⟩
          simp only [processNic]
          rw [hs]
          simp [hsup]

/-- The per-interface fold of a tick succeeds when every processed
interface has a nonempty sorted RX list, whatever the actuator returns. -/
theorem foldlM_nicStep_ok (netRes : List PrometheusResult)
    (ipToNic : List (String × String)) (nicStats : List (String × NicStats))
    (wanToNic : List (String × String)) (now : Nat)
    (actuate : String → String → ActResponse) (nics : List String) :
    ∀ acc : List SwitchRecord × List TickEvent,
      (∀ nic ∈ nics, sortDesc (buildIpRxList netRes ipToNic nic) ≠ []) →
      ∃ res, nics.foldlM
        (nicStep netRes ipToNic nicStats wanToNic now actuate) acc =
        Except.ok res := by
  induction nics with
  | nil => exact fun acc _ => ⟨acc, rfl⟩
  | cons n ns ih =>
      intro acc hne
      obtain ⟨⟨ph, pev⟩, hp⟩ := processNic_ok netRes ipToNic nicStats
        wanToNic now actuate n acc.1 (hne n (List.mem_cons_self n ns))
      obtain ⟨res, hres⟩ := ih (ph, acc.2 ++ [pev])
        (fun nic hn => hne nic (List.mem_cons_of_mem n hn))
      refine ⟨res, ?_⟩
      rw [List.foldlM_cons]
      have hstep : nicStep netRes ipToNic nicStats wanToNic now actuate
          acc n = Except.ok (ph, acc.2 ++ [pev]) := by
        simp [nicStep, hp, Bind.bind, Except.bind, Pure.pure, Except.pure]
      rw [hstep]
      simpa [Bind.bind, Except.bind] using hres

/-- C1 (amended): a failed topology fetch, a failed tcp (capacity) fetch
and a failed network (usage) fetch each propagate out of the orchestrator
loop and end the run with that error — no later tick executes; a failing
actuator, by contrast, never fails the tick: with all three fetches
successful (and every interface's RX list nonempty, which avoids the
separate empty-list panic of C5), the tick completes normally whatever the
actuator returns. -/
theorem c1_amended_fetch_error_propagates
    (inpS inpT inpN inpA : TickInputs) (rest : List TickInputs)
    (history : List SwitchRecord) (e1 e2 e3 : String)
    (stT stN stA : StatusResponse) (tcpN tcpA netA : List PrometheusResult)
    (hS : inpS.statusFetch = Except.error e1)
    (hTs : inpT.statusFetch = Except.ok stT)
    (hTt : inpT.tcpFetch = Except.error e2)
    (hNs : inpN.statusFetch = Except.ok stN)
    (hNt : inpN.tcpFetch = Except.ok tcpN)
    (hNn : inpN.networkFetch = Except.error e3)
    (hAs : inpA.statusFetch = Except.ok stA)
    (hAt : inpA.tcpFetch = Except.ok tcpA)
    (hAn : inpA.networkFetch = Except.ok netA)
    (hAne : ∀ nic ∈ sortedKeys (processNetwork netA
        (build_ip_to_nic_map stA (build_wan_to_nic_map stA.config))
        (processTcp tcpA)),
      sortDesc (buildIpRxList netA
        (build_ip_to_nic_map stA (build_wan_to_nic_map stA.config)) nic)
        ≠ []) :
    runTicks (inpS :: rest) history = Except.error (TickErr.fetchErr e1)
    ∧ runTicks (inpT :: rest) history = Except.error (TickErr.fetchErr e2)
    ∧ runTicks (inpN :: rest) history = Except.error (TickErr.fetchErr e3)
    ∧ ∃ p, tick inpA history = Except.ok p := by
  refine ⟨?_, ?_, ?_, ?_⟩
  · refine runTicks_cons_error inpS rest history _ ?_
    simp [tick, tickBody, hS, Except.mapError, Except.map, Bind.bind,
      Except.bind]
  · refine runTicks_cons_error inpT rest history _ ?_
    simp [tick, tickBody, hTs, hTt, Except.mapError, Except.map, Bind.bind,
      Except.bind]
  · refine runTicks_cons_error inpN rest history _ ?_
    simp [tick, tickBody, hNs, hNt, hNn, Except.mapError, Except.map,
      Bind.bind, Except.bind]
  · have hbody : tickBody inpA history =
        (sortedKeys (processNetwork netA
          (build_ip_to_nic_map stA (build_wan_to_nic_map stA.config))
          (processTcp tcpA))).foldlM
          (nicStep netA
            (build_ip_to_nic_map stA (build_wan_to_nic_map stA.config))
            (processNetwork netA
              (build_ip_to_nic_map stA (build_wan_to_nic_map stA.config))
              (processTcp tcpA))
            (build_wan_to_nic_map stA.config) inpA.now inpA.actuate)
          (history, []) := by
      simp [tickBody, hAs, hAt, hAn, Except.mapError, Bind.bind, Except.bind]
    obtain ⟨res, hres⟩ := foldlM_nicStep_ok netA
      (build_ip_to_nic_map stA (build_wan_to_nic_map stA.config))
      (processNetwork netA
        (build_ip_to_nic_map stA (build_wan_to_nic_map stA.config))
        (processTcp tcpA))
      (build_wan_to_nic_map stA.config) inpA.now inpA.actuate
      (sortedKeys (processNetwork netA
        (build_ip_to_nic_map stA (build_wan_to_nic_map stA.config))
        (processTcp tcpA)))
      (history, []) hAne
    refine ⟨(evictExpired res.1 inpA.now, res.2), ?_⟩
    simp [tick, hbody, hres, Except.map]

/-! ## Counterexamples, panic evaluation and witnesses -/

section ConcreteEvaluations

attribute [local semireducible] Rat.add

/-- C1 counterexample: a tick whose topology fetch fails makes the whole
run return that error — it does not skip to the next tick, although the
next tick would have succeeded on its own. -/
theorem c1_counterexample :
    runTicks [inpC1bad, inpC1good] [] =
      Except.error (TickErr.fetchErr "connection refused")
    ∧ runTicks [inpC1good] [] = Except.ok [] := by
  exact ⟨by decide, by decide⟩

/-- C1 witness: the amended propagation-and-containment statement at
concrete inputs — a failed topology fetch, a failed tcp fetch, a failed
network fetch, and a tick whose actuator fails on a real call. -/
theorem c1_amended_witness :
    inpC1bad.statusFetch = Except.error "connection refused"
    ∧ inpC1tcp.tcpFetch = Except.error "prometheus down"
    ∧ inpC1net.networkFetch = Except.error "packetdump down"
    ∧ (∀ nic ∈ sortedKeys (processNetwork netC1act
        (build_ip_to_nic_map stC1act (build_wan_to_nic_map stC1act.config))
        (processTcp tcpC1act)),
      sortDesc (buildIpRxList netC1act
        (build_ip_to_nic_map stC1act (build_wan_to_nic_map stC1act.config))
        nic) ≠ [])
    ∧ (runTicks [inpC1bad] [] =
        Except.error (TickErr.fetchErr "connection refused")
      ∧ runTicks [inpC1tcp] [] =
          Except.error (TickErr.fetchErr "prometheus down")
      ∧ runTicks [inpC1net] [] =
          Except.error (TickErr.fetchErr "packetdump down")
      ∧ ∃ p, tick inpC1act [] = Except.ok p) :=
  ⟨rfl, rfl, rfl, by decide,
    c1_amended_fetch_error_propagates inpC1bad inpC1tcp inpC1net inpC1act []
      [] "connection refused" "prometheus down" "packetdump down"
      ⟨⟨"br0", "eth0", "eth1"⟩, []⟩ ⟨⟨"br0", "eth0", "eth1"⟩, []⟩ stC1act
      [] tcpC1act netC1act rfl rfl rfl rfl rfl rfl rfl rfl rfl (by decide)⟩

/-- C2 counterexample: in a single-interface tick the target picker falls
back to the flow's current interface (`eth0`, reached via `wan0`) and the
actuator is still invoked, switching the flow to its own interface. -/
theorem c2_counterexample :
    tick inpC2 [] =
      Except.ok ([⟨"10.0.0.1", "wan0", 10⟩],
        [TickEvent.switchOk "eth0" "10.0.0.1" "wan0"])
    ∧ lookupA (build_wan_to_nic_map stC2.config) "wan0" = some "eth0"
    ∧ lookupA (build_ip_to_nic_map stC2 (build_wan_to_nic_map stC2.config))
        "10.0.0.1" = some "eth0"
    ∧ keysA (processNetwork netC2
        (build_ip_to_nic_map stC2 (build_wan_to_nic_map stC2.config))
        (processTcp tcpC2)) = ["eth0"] := by
  exact ⟨by decide, by decide, by decide, by decide⟩

/-- C2 witness: with another interface present in the stats the picked
target differs from the current one. -/
theorem c2_amended_witness :
    (∃ p ∈ [("eth1", (⟨9, 0, 0⟩ : NicStats))], p.1 ≠ "eth0")
    ∧ pickTargetNic [("eth1", ⟨9, 0, 0⟩)] "eth0" ≠ "eth0" :=
  ⟨by decide, c2_amended_target_excludes_current _ _ (by decide)⟩

/-- C3 counterexample: a tick in which `eth0` is not overloaded
(RX + TX = 7 ≤ capacity 100) yet the actuator is invoked for its top flow
(and likewise for `eth1`): the orchestrator has no overload gate. -/
theorem c3_counterexample :
    tick inpC3 [] =
      Except.ok ([⟨"10.0.0.1", "wan1", 20⟩, ⟨"10.0.0.2", "wan0", 20⟩],
        [TickEvent.switchOk "eth0" "10.0.0.1" "wan1",
         TickEvent.switchOk "eth1" "10.0.0.2" "wan0"])
    ∧ lookupA (processNetwork netC3 ipToNicC3 (processTcp tcpC3)) "eth0" =
        some ⟨100, 0, 7⟩
    ∧ isOverloadedStats ⟨100, 0, 7⟩ = false := by
  exact ⟨by decide, by decide, by decide⟩

/-- C3 witness: the amended gating statement at a concrete interface. -/
theorem c3_amended_witness :
    processNic netW ipToNicW statsW wanToNicW 5
      (fun _ _ => ActResponse.status true) "eth0" [] =
      Except.ok ([⟨"w1", "wan1", 5⟩], TickEvent.switchOk "eth0" "w1" "wan1")
    ∧ TickEvent.isActCall (TickEvent.switchOk "eth0" "w1" "wan1") = true
    ∧ ∃ ip rx rest,
        sortDesc (buildIpRxList netW ipToNicW "eth0") = (ip, rx) :: rest
        ∧ TickEvent.flowIp (TickEvent.switchOk "eth0" "w1" "wan1") = ip
        ∧ isSuppressed [] ip 5 = false :=
  ⟨by decide, by decide,
    c3_amended_actuation_gating netW ipToNicW statsW wanToNicW 5
      (fun _ _ => ActResponse.status true) "eth0" [] [⟨"w1", "wan1", 5⟩]
      (TickEvent.switchOk "eth0" "w1" "wan1") (by decide) (by decide)⟩

/-- C4 counterexample: the top flow `10.0.0.1` is suppressed while the
next-highest flow `10.0.0.2` is not, yet the tick produces no candidate at
all for the interface — the code never tries the next-highest flow. -/
theorem c4_counterexample :
    tick inpC4 histC4 =
      Except.ok (histC4, [TickEvent.suppressed "eth0" "10.0.0.1" 10])
    ∧ isSuppressed histC4 "10.0.0.2" 100 = false
    ∧ TickEvent.isActCall (TickEvent.suppressed "eth0" "10.0.0.1" 10) =
        false := by
  exact ⟨by decide, by decide, by decide⟩

/-- C4 witness: the amended head-only statement at a concrete interface. -/
theorem c4_amended_witness :
    sortDesc (buildIpRxList netW ipToNicW "eth0") = [("w1", 3)]
    ∧ isSuppressed histW "w1" 5 = true
    ∧ (processNic netW ipToNicW statsW wanToNicW 5
          (fun _ _ => ActResponse.status true) "eth0" histW =
        Except.ok (histW, TickEvent.suppressed "eth0" "w1" 3)
      ∧ List.Sorted rxGE (sortDesc (buildIpRxList netW ipToNicW "eth0"))) :=
  ⟨by decide, by decide,
    c4_amended_top_flow_only netW ipToNicW statsW wanToNicW 5
      (fun _ _ => ActResponse.status true) "eth0" histW "w1" 3 []
      (by decide) (by decide)⟩

/-- C5: evaluation at the failing input — an interface with a capacity
sample but an empty per-flow RX list makes the tick panic (the slice
indexing of `src/main.rs` line 231) instead of completing. -/
theorem c5_empty_rx_list_panics :
    tick inpC5 [] =
      Except.error
        (TickErr.panic "range end index 1 out of range for slice of length 0")
    ∧ keysA (processNetwork []
        (build_ip_to_nic_map stC5 (build_wan_to_nic_map stC5.config))
        (processTcp tcpC5)) = ["eth0"]
    ∧ buildIpRxList []
        (build_ip_to_nic_map stC5 (build_wan_to_nic_map stC5.config))
        "eth0" = [] := by
  exact ⟨by decide, by decide, by decide⟩

/-- C6 witness: the cooldown statement at concrete values, with the
successful-switch tick `inpC6` providing the record created at the tick's
own time. -/
theorem c6_witness :
    ((0 : Nat) ≤ 10)
    ∧ tickBody inpC6 [] =
        Except.ok ([⟨"10.0.0.6", "wan0", 10⟩],
          [TickEvent.switchOk "eth0" "10.0.0.6" "wan0"])
    ∧ ((isSuppressed [⟨"a", "wan0", 0⟩] "a" 10 = true ↔ 10 - 0 ≤ 30)
      ∧ (evictExpired [⟨"a", "wan0", 0⟩] 10 = [] ↔ 30 < 10 - 0)
      ∧ isSuppressed [⟨"a", "wan0", 0⟩] "a" (0 + 29) = true
      ∧ evictExpired [⟨"a", "wan0", 0⟩] (0 + 31) = []
      ∧ (⟨"a", "wan0", 10⟩ : SwitchRecord) ∈
          evictExpired ([] ++ [⟨"a", "wan0", 10⟩]) 10
      ∧ tick inpC6 [] =
          Except.ok (evictExpired [⟨"10.0.0.6", "wan0", 10⟩] inpC6.now,
            [TickEvent.switchOk "eth0" "10.0.0.6" "wan0"])
      ∧ (⟨"10.0.0.6", "wan0", 10⟩ : SwitchRecord) ∈
          evictExpired [⟨"10.0.0.6", "wan0", 10⟩] inpC6.now) :=
  ⟨by decide, by decide,
    c6_cooldown_window "a" "wan0" 0 10 (by decide) [] inpC6 []
      [⟨"10.0.0.6", "wan0", 10⟩] [TickEvent.switchOk "eth0" "10.0.0.6" "wan0"]
      ⟨"10.0.0.6", "wan0", 10⟩ (by decide) (by decide) rfl⟩

/-- C7 witness: the boundary statement at a concrete comparison (capacity
100, RX 60, TX 50). -/
theorem c7_witness :
    compareOne (buildBandwidthMap tcpMetricsW) "eth0" 60 50 ∈
      compare_bandwidth tcpMetricsW totalsW
    ∧ (((compareOne (buildBandwidthMap tcpMetricsW) "eth0" 60 50).exceeded =
          true ↔
        (compareOne (buildBandwidthMap tcpMetricsW) "eth0" 60
            50).estimated_bandwidth <
          (compareOne (buildBandwidthMap tcpMetricsW) "eth0" 60 50).actual_rx +
            (compareOne (buildBandwidthMap tcpMetricsW) "eth0" 60 50).actual_tx)
      ∧ ((compareOne (buildBandwidthMap tcpMetricsW) "eth0" 60 50).actual_rx +
            (compareOne (buildBandwidthMap tcpMetricsW) "eth0" 60
              50).actual_tx =
          (compareOne (buildBandwidthMap tcpMetricsW) "eth0" 60
            50).estimated_bandwidth →
        (compareOne (buildBandwidthMap tcpMetricsW) "eth0" 60 50).exceeded =
          false)
      ∧ (compareOne (buildBandwidthMap tcpMetricsW) "eth0" 60
          50).actual_total =
        (compareOne (buildBandwidthMap tcpMetricsW) "eth0" 60 50).actual_rx +
          (compareOne (buildBandwidthMap tcpMetricsW) "eth0" 60 50).actual_tx) :=
  ⟨by decide,
    c7_overload_boundary tcpMetricsW totalsW
      (compareOne (buildBandwidthMap tcpMetricsW) "eth0" 60 50) (by decide)⟩

/-- C8 witness: the recording statement at a concrete successful call. -/
theorem c8_witness :
    sortDesc (buildIpRxList netW ipToNicW "eth0") = [("w1", 3)]
    ∧ isSuppressed [] "w1" 5 = false
    ∧ (processNic netW ipToNicW statsW wanToNicW 5
          (fun _ _ => ActResponse.status true) "eth0" [] =
        Except.ok (actOutcome "eth0" "w1"
          (resolveTargetWan wanToNicW (pickTargetNic statsW "eth0")) 5 []
          (ActResponse.status true))
      ∧ actOutcome "eth0" "w1"
          (resolveTargetWan wanToNicW (pickTargetNic statsW "eth0")) 5 []
          (ActResponse.status true) =
        ([⟨"w1", resolveTargetWan wanToNicW (pickTargetNic statsW "eth0"),
            5⟩],
         TickEvent.switchOk "eth0" "w1"
           (resolveTargetWan wanToNicW (pickTargetNic statsW "eth0")))
      ∧ actOutcome "eth0" "w1"
          (resolveTargetWan wanToNicW (pickTargetNic statsW "eth0")) 5 []
          (ActResponse.status false) =
        ([], TickEvent.switchHttpErr "eth0" "w1"
          (resolveTargetWan wanToNicW (pickTargetNic statsW "eth0")))
      ∧ actOutcome "eth0" "w1"
          (resolveTargetWan wanToNicW (pickTargetNic statsW "eth0")) 5 []
          ActResponse.err =
        ([], TickEvent.switchTransportErr "eth0" "w1"
          (resolveTargetWan wanToNicW (pickTargetNic statsW "eth0")))) :=
  ⟨by decide, by decide,
    c8_actuator_recording netW ipToNicW statsW wanToNicW 5
      (fun _ _ => ActResponse.status true) "eth0" [] "w1" 3 []
      (ActResponse.status true) (by decide) (by decide) rfl⟩

/-- C9 witness: the missing-capacity statement for `eth2`, whose only
capacity sample is non-numeric, with usage RX 1, TX 0. -/
theorem c9_witness :
    (∀ r ∈ resultsW9, lookupA r.metric "interface" = some "eth2" →
      r.value = none)
    ∧ ((compareOne (buildBandwidthMap (get_tcp_bandwidth_avg resultsW9))
          "eth2" 1 0).estimated_bandwidth = 0
      ∧ (0 < (1 : ℚ) + 0 →
          (compareOne (buildBandwidthMap (get_tcp_bandwidth_avg resultsW9))
            "eth2" 1 0).exceeded = true)) :=
  ⟨by decide, c9_missing_capacity_zero resultsW9 "eth2" 1 0 (by decide)⟩

end ConcreteEvaluations
